import Mathlib

/-!
Verification development for `src/python_version/src/visa_bot.py`
(yasin459/us-visa-bot).

The Python script is shallowly embedded: JSON response bodies become an
inductive `JVal`, Python runtime errors become `PyErr`, fallible Python
expressions become `Except PyErr _`, and the HTTP side effects of the
bot's methods are recorded as an explicit trace of `Request` values whose
response bodies are supplied as inputs (the remote service is scripted).
String comparison of dates uses Lean's lexicographic `String` order,
matching Python's code-point-lexicographic `>` on `str`.
-/

namespace VisaBot

/-- A JSON value as produced by `response.json()`, restricted to the shapes
the endpoints of this program use: null, strings, arrays and objects. -/
inductive JVal : Type
  | null : JVal
  | str (s : String) : JVal
  | arr (xs : List JVal) : JVal
  | obj (fields : List (String × JVal)) : JVal
deriving Repr

/-- Python runtime errors that the embedded expressions can raise. -/
inductive PyErr : Type
  | exc (msg : JVal)        -- `raise Exception(data['error'])`
  | indexError              -- `[...][0]` on an empty list
  | keyError (k : String)   -- subscripting a dict with a missing key
  | typeError               -- unsupported operation on this type
  | attributeError          -- attribute access on a value lacking it
  | unboundLocalError       -- local variable referenced before assignment
deriving Repr

/-- Python truthiness of a JSON value: `None`, `""`, `[]` and the empty
dict are falsy, everything else modelled here is truthy. -/
def JVal.truthy : JVal → Bool
  | .null => false
  | .str s => !s.isEmpty
  | .arr xs => !xs.isEmpty
  | .obj fs => !fs.isEmpty

/-- First binding of key `k` in a Python dict (dict keys are unique, so
taking the first binding is exact). -/
def lookupKey (fs : List (String × JVal)) (k : String) : Option JVal :=
  (fs.find? (fun p => p.1 == k)).map (fun p => p.2)

/-- Python `'error' in data`: key membership for a dict, element membership
for a list (an element equals the string `'error'` only if it is that very
string), substring test for a string, `TypeError` for `None`. -/
def inErrorOp : JVal → Except PyErr Bool
  | .obj fs => .ok (lookupKey fs "error").isSome
  | .arr xs => .ok (xs.any fun v => match v with
      | .str s => s == "error"
      | _ => false)
  | .str s => .ok ((s.splitOn "error").length != 1)
  | .null => .error .typeError

/-- Python `data[0]`: first element of a list (`IndexError` when empty),
`KeyError` for a dict (integer keys are absent here), first character of a
string, `TypeError` for `None`. -/
def JVal.sub0 : JVal → Except PyErr JVal
  | .arr [] => .error .indexError
  | .arr (x :: _) => .ok x
  | .obj _ => .error (.keyError "0")
  | .str s => if s.isEmpty then .error .indexError else .ok (.str (String.singleton s.front))
  | .null => .error .typeError

/-- Python `data[k]` for a string key `k`: dict lookup (`KeyError` when the
key is missing), `TypeError` on lists, strings and `None`. -/
def JVal.subKey (v : JVal) (k : String) : Except PyErr JVal :=
  match v with
  | .obj fs =>
      match lookupKey fs k with
      | some x => .ok x
      | none => .error (.keyError k)
  | .arr _ => .error .typeError
  | .str _ => .error .typeError
  | .null => .error .typeError

/-- Python `data.get(k, dflt)`: defined only on dicts; any other receiver
raises `AttributeError`. -/
def dictGet (v : JVal) (k : String) (dflt : JVal) : Except PyErr JVal :=
  match v with
  | .obj fs => .ok ((lookupKey fs k).getD dflt)
  | _ => .error .attributeError

/-- `VisaBot.check_available_date`, lines 66-77: parse the days response.
`if 'error' in data: raise Exception(data['error'])`, then
`return data[0]['date'] if data else None`. -/
def check_available_date (data : JVal) : Except PyErr JVal := do
  let hasErr ← inErrorOp data
  if hasErr then
    let msg ← data.subKey "error"
    Except.error (.exc msg)
  else
    if data.truthy then do
      let first ← data.sub0
      first.subKey "date"
    else
      pure .null

/-- `VisaBot.check_available_time`, lines 79-94: parse the times response.
`if 'error' in data: raise Exception(data['error'])`, then
`return (data.get('business_times', [None])[0] or
         data.get('available_times', [None])[0])`.
Note that the `[None]` default applies only when the key is ABSENT: a key
bound to an empty list reaches `[0]` and raises `IndexError`, and Python
`or` falls through to the right operand whenever the left is falsy. -/
def check_available_time (data : JVal) : Except PyErr JVal := do
  let hasErr ← inErrorOp data
  if hasErr then
    let msg ← data.subKey "error"
    Except.error (.exc msg)
  else do
    let bt ← dictGet data "business_times" (.arr [.null])
    let b0 ← bt.sub0
    if b0.truthy then
      pure b0
    else do
      let avail ← dictGet data "available_times" (.arr [.null])
      let a0 ← avail.sub0
      pure a0

/-- An HTML page, reduced to the one datum the script scrapes from it:
`soup.find('meta', name csrf-token)` and its `content` attribute.
`csrfMeta = none` means no such meta tag; `some none` means the tag exists
but has no `content` attribute; `some (some tok)` means the token is there. -/
structure HtmlPage : Type where
  csrfMeta : Option (Option String)
deriving Repr

/-- `soup.find('meta', name csrf-token)['content']` (lines 48 and 103):
`find` returning `None` makes the subscript raise `TypeError`; a tag
without the `content` attribute raises `KeyError`. -/
def find_csrf (page : HtmlPage) : Except PyErr String :=
  match page.csrfMeta with
  | none => .error .typeError
  | some none => .error (.keyError "content")
  | some (some tok) => .ok tok

/-- One HTTP request issued by the bot, in order of issue. The response
bodies are scripted separately as inputs. -/
inductive Request : Type
  | getSignIn : Request
  | postSignIn (token : String) : Request
  | getDays : Request
  | getTimes (date : String) : Request
  | getAppointment : Request
  | postAppointment (token : String) (date : String) (t : JVal) : Request
deriving Repr

/-- `VisaBot.login`, lines 41-64: GET the sign-in page, scrape the csrf
token, then POST the login form. If scraping fails the POST is never
issued. The returned list is the trace of requests actually sent. -/
def login (signInPage : HtmlPage) : List Request × Except PyErr Unit :=
  match find_csrf signInPage with
  | .error e => ([.getSignIn], .error e)
  | .ok tok => ([.getSignIn, .postSignIn tok], .ok ())

/-- `VisaBot.book_appointment`, lines 96-122: GET the appointment page for
a fresh csrf token, then POST the booking form. If scraping fails the POST
is never issued. -/
def book_appointment (appointmentPage : HtmlPage) (date : String) (t : JVal) :
    List Request × Except PyErr Unit :=
  match find_csrf appointmentPage with
  | .error e => ([.getAppointment], .error e)
  | .ok tok => ([.getAppointment, .postAppointment tok date t], .ok ())

/-- The mutable locals of `VisaBot.run` that survive across iterations of
its `while True` loop: `current_booked_date`, and the local variable
`time`. Because `time = self.check_available_time(date)` assigns `time`
inside `run`, Python treats `time` as a local variable THROUGHOUT the
function body, shadowing the imported `time` module; `timeVar = none`
means it is not yet bound in this invocation of `run`. -/
structure LoopState : Type where
  current_booked_date : String
  timeVar : Option JVal
deriving Repr

/-- `time.sleep(self.refresh_delay)` at line 150, under the shadowing just
described: if the local `time` is unbound (no iteration has taken the
booking branch yet) this raises `UnboundLocalError`; if it is bound, its
value is the string or `None` returned by `check_available_time`, neither
of which has a `sleep` attribute, so it raises `AttributeError`. The call
never actually sleeps. -/
def timeSleep (timeVar : Option JVal) : Except PyErr Unit :=
  match timeVar with
  | none => .error .unboundLocalError
  | some _ => .error .attributeError

/-- The scripted remote responses one loop iteration may consume: the days
JSON body, the times JSON body, and the appointment-page HTML. -/
structure IterInput : Type where
  days : JVal
  times : JVal
  appointmentPage : HtmlPage
deriving Repr

/-- How one iteration of the `while True` body ends: `next` means the body
ran to completion (including the sleep) with the given locals; `raised`
means an exception escaped the body while `current_booked_date` held the
given string. -/
inductive IterOutcome : Type
  | next (s : LoopState) : IterOutcome
  | raised (e : PyErr) (currentDate : String) : IterOutcome
deriving Repr

/-- The value `current_booked_date` holds when the iteration ends, whether
normally or by exception. -/
def outcomeBaseline : IterOutcome → String
  | .next s => s.current_booked_date
  | .raised _ d => d

/-- One iteration of the `while True` body of `VisaBot.run`, lines
135-150. `date = self.check_available_date()`; `if not date` log only;
`elif date > current_booked_date` log only (a truthy non-string date would
make `>` against a `str` raise `TypeError`); else assign
`current_booked_date = date` FIRST, then `time = self.check_available_time
(date)`, and book when `time` is truthy; finally `time.sleep(...)`. -/
def runIteration (s : LoopState) (inp : IterInput) : List Request × IterOutcome :=
  match check_available_date inp.days with
  | .error e => ([.getDays], .raised e s.current_booked_date)
  | .ok date =>
    let afterBranch : List Request × (LoopState ⊕ (PyErr × String)) :=
      if !date.truthy then
        ([.getDays], .inl s)
      else
        match date with
        | .str d =>
          -- Python `date > current_booked_date` on `str` is code-point
          -- lexicographic, i.e. the `List Char` order on the characters.
          if s.current_booked_date.data < d.data then
            ([.getDays], .inl s)
          else
            match check_available_time inp.times with
            | .error e => ([.getDays, .getTimes d], .inr (e, d))
            | .ok t =>
              if t.truthy then
                match book_appointment inp.appointmentPage d t with
                | (reqs, .error e) => ([.getDays, .getTimes d] ++ reqs, .inr (e, d))
                | (reqs, .ok _) =>
                  ([.getDays, .getTimes d] ++ reqs, .inl ⟨d, some t⟩)
              else
                ([.getDays, .getTimes d], .inl ⟨d, some t⟩)
        | _ => ([.getDays], .inr (.typeError, s.current_booked_date))
    match afterBranch with
    | (reqs, .inr (e, d)) => (reqs, .raised e d)
    | (reqs, .inl s') =>
      match timeSleep s'.timeVar with
      | .error e => (reqs, .raised e s'.current_booked_date)
      | .ok _ => (reqs, .next s')

/-- How a whole `run` invocation (login plus `while True`) ends: `raised`
is an exception reaching the `except` clause at line 152 while
`current_booked_date` held the given string; `outOfScript` is a model
artifact meaning the scripted responses ran out while the loop was still
going (the real loop never terminates normally). -/
inductive AttemptOutcome : Type
  | raised (e : PyErr) (currentDate : String) : AttemptOutcome
  | outOfScript (s : LoopState) : AttemptOutcome
deriving Repr

/-- The `while True` loop of `run`, fed one scripted `IterInput` per
iteration. -/
def runLoop (s : LoopState) : List IterInput → List Request × AttemptOutcome
  | [] => ([], .outOfScript s)
  | inp :: rest =>
    match runIteration s inp with
    | (reqs, .raised e d) => (reqs, .raised e d)
    | (reqs, .next s') =>
      let (reqs2, out) := runLoop s' rest
      (reqs ++ reqs2, out)

/-- The scripted responses for one invocation of `run`: the sign-in page
served to `login`, then the per-iteration responses. -/
structure AttemptInput : Type where
  signInPage : HtmlPage
  iters : List IterInput
deriving Repr

/-- The `try` block of `run`, lines 132-150: `self.login()` then the
`while True` loop, starting with `time` unbound. An exception in `login`
reaches the `except` clause with `current_booked_date` still equal to the
argument. -/
def runAttempt (current : String) (a : AttemptInput) : List Request × AttemptOutcome :=
  match login a.signInPage with
  | (reqs, .error e) => (reqs, .raised e current)
  | (reqs, .ok _) =>
    let (reqs2, out) := runLoop ⟨current, none⟩ a.iters
    (reqs ++ reqs2, out)

/-- `VisaBot.run`, lines 124-155: `if not current_booked_date` log an
error and return; otherwise attempt login-plus-loop, and on any exception
log it and recurse as `self.run(current_booked_date)` with the value the
local held when the exception was raised. The scripted `attempts` list
bounds the recursion (the real program recurses without bound); the
returned string is the final `current_booked_date`. -/
def run (current : String) : List AttemptInput → List Request × String
  | [] => ([], current)
  | a :: rest =>
    if current.isEmpty then
      ([], current)
    else
      match runAttempt current a with
      | (reqs, .raised _ d) =>
        let (reqs2, final) := run d rest
        (reqs ++ reqs2, final)
      | (reqs, .outOfScript s) => (reqs, s.current_booked_date)

/-- How `main` ends: `usageExit code` is `sys.exit(code)` after the usage
message; `finished` carries the final `current_booked_date` of the
(script-bounded) `run`. -/
inductive MainOutcome : Type
  | usageExit (code : Nat) : MainOutcome
  | finished (finalDate : String) : MainOutcome
deriving Repr

/-- `main`, lines 157-166: `sys.argv` must have exactly two entries (the
program name and the date); otherwise print usage and `sys.exit(1)` with
no bot constructed and no request issued. -/
def main (argv : List String) (attempts : List AttemptInput) :
    MainOutcome × List Request :=
  match argv with
  | [_, currentBookedDate] =>
    let (reqs, final) := run currentBookedDate attempts
    (.finished final, reqs)
  | _ => (.usageExit 1, [])

/-!  Theorems about the embedded program. -/

/-- C1, counterexample: with `business_times` PRESENT but EMPTY and
`available_times` non-empty, `check_available_time` does not fall back to
the first `available_times` entry as the claim states; the `[None]`
default of `data.get` applies only to an absent key, so `[0]` on the empty
list raises `IndexError`. -/
theorem c1_claim_counterexample :
    check_available_time (JVal.obj
      [("business_times", JVal.arr []),
       ("available_times", JVal.arr [JVal.str "10:00"])])
      = Except.error PyErr.indexError
    ∧ (Except.error PyErr.indexError
        ≠ (Except.ok (JVal.str "10:00") : Except PyErr JVal)) :=
  ⟨rfl, fun h => Except.noConfusion h⟩

/-- C1, amended: on an error-free response object, the first
`business_times` entry is returned only when that entry is truthy (a
non-empty string); a falsy first entry falls through to `available_times`;
a key PRESENT with an empty list raises `IndexError` rather than falling
back or returning absence; a key ABSENT defaults to `[None]`, so absence
(`None`) is returned only when the consulted keys are absent. -/
theorem c1_amended_time_policy :
    ∀ (fs : List (String × JVal)),
    lookupKey fs "error" = none →
    ( (∀ x xs, lookupKey fs "business_times" = some (.arr (x :: xs)) →
        x.truthy = true →
        check_available_time (.obj fs) = Except.ok x)
    ∧ (lookupKey fs "business_times" = some (.arr []) →
        check_available_time (.obj fs) = Except.error PyErr.indexError)
    ∧ (∀ x xs y ys, lookupKey fs "business_times" = some (.arr (x :: xs)) →
        x.truthy = false →
        lookupKey fs "available_times" = some (.arr (y :: ys)) →
        check_available_time (.obj fs) = Except.ok y)
    ∧ (∀ x xs, lookupKey fs "business_times" = some (.arr (x :: xs)) →
        x.truthy = false →
        lookupKey fs "available_times" = some (.arr []) →
        check_available_time (.obj fs) = Except.error PyErr.indexError)
    ∧ (∀ x xs, lookupKey fs "business_times" = some (.arr (x :: xs)) →
        x.truthy = false →
        lookupKey fs "available_times" = none →
        check_available_time (.obj fs) = Except.ok JVal.null)
    ∧ (lookupKey fs "business_times" = none → ∀ y ys,
        lookupKey fs "available_times" = some (.arr (y :: ys)) →
        check_available_time (.obj fs) = Except.ok y)
    ∧ (lookupKey fs "business_times" = none →
        lookupKey fs "available_times" = some (.arr []) →
        check_available_time (.obj fs) = Except.error PyErr.indexError)
    ∧ (lookupKey fs "business_times" = none →
        lookupKey fs "available_times" = none →
        check_available_time (.obj fs) = Except.ok JVal.null) ) := by
  intro fs herr
  refine ⟨?_, ?_, ?_, ?_, ?_, ?_, ?_, ?_⟩ <;>
    intros <;>
    simp_all [check_available_time, inErrorOp, dictGet, JVal.sub0, JVal.truthy,
      Except.bind, bind, pure, Except.pure]

/-- C1, witness: with `business_times` absent and `available_times` equal
to a one-entry list, the first `available_times` entry is returned. -/
theorem c1_amended_time_policy_witness :
    lookupKey [("available_times", JVal.arr [JVal.str "10:00"])] "error" = none
    ∧ check_available_time (.obj [("available_times", JVal.arr [JVal.str "10:00"])])
        = Except.ok (JVal.str "10:00") :=
  ⟨rfl,
   ((c1_amended_time_policy [("available_times", JVal.arr [JVal.str "10:00"])]
      rfl).2.2.2.2.2.1 rfl (JVal.str "10:00") [] rfl)⟩

/-- C2, code-bug evidence: the assignment `time = self.check_available_time
(date)` makes `time` a local variable throughout `run`, shadowing the
`time` module, so `time.sleep(self.refresh_delay)` raises on EVERY
iteration — `UnboundLocalError` when the booking branch has not run yet,
`AttributeError` when it has — instead of sleeping and repeating. -/
theorem c2_sleep_always_raises :
    (runIteration ⟨"2024-06-01", none⟩
        ⟨JVal.arr [], JVal.null, ⟨some (some "tok")⟩⟩
      = ([Request.getDays],
         IterOutcome.raised PyErr.unboundLocalError "2024-06-01"))
    ∧ (runIteration ⟨"2024-06-01", none⟩
        ⟨JVal.arr [JVal.obj [("date", JVal.str "2024-05-15")]],
         JVal.obj [("available_times", JVal.arr [JVal.str "09:00"])],
         ⟨some (some "tok")⟩⟩
      = ([Request.getDays, Request.getTimes "2024-05-15",
          Request.getAppointment,
          Request.postAppointment "tok" "2024-05-15" (JVal.str "09:00")],
         IterOutcome.raised PyErr.attributeError "2024-05-15"))
    ∧ (∀ tv : Option JVal, ∃ e, timeSleep tv = Except.error e) := by
  refine ⟨rfl, rfl, ?_⟩
  intro tv
  cases tv <;> exact ⟨_, rfl⟩

/-- C6: `check_available_date` returns the `date` field of the first
element of a non-empty array of objects, returns `None` (absence) on an
empty array, and raises an exception carrying the `error` field's value
when the body is an object with an `error` key. -/
theorem c6_date_policy :
    ( ∀ (firstFields : List (String × JVal)) (more : List (List (String × JVal)))
        (d : JVal),
        lookupKey firstFields "date" = some d →
        check_available_date
          (.arr (JVal.obj firstFields :: more.map JVal.obj)) = Except.ok d )
    ∧ check_available_date (.arr []) = Except.ok JVal.null
    ∧ ( ∀ (fs : List (String × JVal)) (msg : JVal),
        lookupKey fs "error" = some msg →
        check_available_date (.obj fs) = Except.error (PyErr.exc msg) ) := by
  refine ⟨?_, rfl, ?_⟩
  · intro firstFields more d hdate
    have hnoerr : (more.map JVal.obj).any (fun v => match v with
        | .str s => s == "error"
        | _ => false) = false := by
      induction more with
      | nil => rfl
      | cons m ms ih => simp [ih]
    simp [check_available_date, inErrorOp, JVal.truthy, JVal.sub0, JVal.subKey,
      hnoerr, hdate, Except.bind, bind, pure, Except.pure]
  · intro fs msg herr
    simp [check_available_date, inErrorOp, JVal.subKey, herr,
      Except.bind, bind, pure, Except.pure]

/-- C6, witness: a one-element array yields its `date` field; an error
object raises with its message. -/
theorem c6_date_policy_witness :
    lookupKey [("date", JVal.str "2024-05-15")] "date" = some (JVal.str "2024-05-15")
    ∧ check_available_date
        (.arr [JVal.obj [("date", JVal.str "2024-05-15")]])
        = Except.ok (JVal.str "2024-05-15") :=
  ⟨rfl, c6_date_policy.1 [("date", JVal.str "2024-05-15")] [] _ rfl⟩

/-- The `List Char` comparison used in the embedding agrees with the
lexicographic order on `String`. -/
theorem data_lt_iff (a b : String) : a.data < b.data ↔ a < b :=
  ⟨fun h => String.lt_iff_toList_lt.mpr h, fun h => String.lt_iff_toList_lt.mp h⟩

/-- C7: when the served HTML lacks the csrf-token meta tag, or the tag
lacks its `content` attribute, both `login` and `book_appointment` fail
before their POST: the request trace contains no form submission at all. -/
theorem c7_missing_csrf_no_post :
    ∀ (page : HtmlPage) (d : String) (t : JVal),
    (page.csrfMeta = none ∨ page.csrfMeta = some none) →
    ( (∃ e, (login page).2 = Except.error e)
    ∧ (∀ tok, Request.postSignIn tok ∉ (login page).1)
    ∧ (∃ e, (book_appointment page d t).2 = Except.error e)
    ∧ (∀ tok d' t', Request.postAppointment tok d' t' ∉ (book_appointment page d t).1) ) := by
  intro page d t h
  rcases page with ⟨meta⟩
  rcases h with h | h <;> subst h <;>
    refine ⟨⟨_, rfl⟩, ?_, ⟨_, rfl⟩, ?_⟩ <;>
    intros <;> simp [login, book_appointment, find_csrf]

/-- C7, witness: a page with no csrf meta tag at all. -/
theorem c7_missing_csrf_no_post_witness :
    ((HtmlPage.mk none).csrfMeta = none ∨ (HtmlPage.mk none).csrfMeta = some none)
    ∧ ( (∃ e, (login ⟨none⟩).2 = Except.error e)
      ∧ (∀ tok, Request.postSignIn tok ∉ (login ⟨none⟩).1)
      ∧ (∃ e, (book_appointment ⟨none⟩ "2024-05-15" JVal.null).2 = Except.error e)
      ∧ (∀ tok d' t', Request.postAppointment tok d' t'
          ∉ (book_appointment ⟨none⟩ "2024-05-15" JVal.null).1) ) :=
  ⟨Or.inl rfl, c7_missing_csrf_no_post ⟨none⟩ "2024-05-15" JVal.null (Or.inl rfl)⟩

/-- A string other than `""` is not `isEmpty`. -/
theorem isEmpty_false_of_ne {d : String} (h : d ≠ "") : d.isEmpty = false := by
  cases hh : d.isEmpty
  · rfl
  · exact absurd ((String.isEmpty_iff d).mp hh) h

/-- A non-empty candidate date string is truthy. -/
theorem str_truthy {d : String} (h : d ≠ "") : (JVal.str d).truthy = true := by
  simp [JVal.truthy, isEmpty_false_of_ne h]

/-- C8: in an iteration whose candidate date is earlier than or equal to
the baseline (so the baseline is updated) and where `check_available_time`
returns `None` (absence), `book_appointment` is never invoked: neither the
appointment-page GET nor the booking POST appears in the trace. -/
theorem c8_absent_time_no_booking :
    ∀ (s : LoopState) (inp : IterInput) (d : String),
    check_available_date inp.days = Except.ok (JVal.str d) →
    d ≠ "" →
    ¬ s.current_booked_date < d →
    check_available_time inp.times = Except.ok JVal.null →
    ( outcomeBaseline (runIteration s inp).2 = d
    ∧ Request.getAppointment ∉ (runIteration s inp).1
    ∧ ∀ tok d' t', Request.postAppointment tok d' t' ∉ (runIteration s inp).1 ) := by
  intro s inp d hcd hne hlt hct
  have hlt' : ¬ s.current_booked_date.data < d.data :=
    fun hh => hlt ((data_lt_iff _ _).mp hh)
  simp [runIteration, hcd, hct, JVal.truthy, isEmpty_false_of_ne hne, hlt',
    timeSleep, outcomeBaseline]

/-- C8, witness: baseline 2024-06-01, candidate 2024-05-15, no times. -/
theorem c8_absent_time_no_booking_witness :
    ( check_available_date (JVal.arr [JVal.obj [("date", JVal.str "2024-05-15")]])
        = Except.ok (JVal.str "2024-05-15")
    ∧ ("2024-05-15" : String) ≠ ""
    ∧ ¬ ("2024-06-01" : String) < "2024-05-15"
    ∧ check_available_time (JVal.obj [])
        = Except.ok JVal.null )
    ∧ ( outcomeBaseline (runIteration ⟨"2024-06-01", none⟩
          ⟨JVal.arr [JVal.obj [("date", JVal.str "2024-05-15")]],
           JVal.obj [],
           ⟨some (some "tok")⟩⟩).2 = "2024-05-15"
      ∧ Request.getAppointment ∉ (runIteration ⟨"2024-06-01", none⟩
          ⟨JVal.arr [JVal.obj [("date", JVal.str "2024-05-15")]],
           JVal.obj [],
           ⟨some (some "tok")⟩⟩).1
      ∧ ∀ tok d' t', Request.postAppointment tok d' t'
          ∉ (runIteration ⟨"2024-06-01", none⟩
            ⟨JVal.arr [JVal.obj [("date", JVal.str "2024-05-15")]],
             JVal.obj [],
             ⟨some (some "tok")⟩⟩).1 ) := by
  refine ⟨⟨rfl, by decide, ?_, rfl⟩, ?_⟩
  · intro h
    exact absurd ((data_lt_iff _ _).mpr h) (by decide)
  · exact c8_absent_time_no_booking ⟨"2024-06-01", none⟩
      ⟨JVal.arr [JVal.obj [("date", JVal.str "2024-05-15")]],
       JVal.obj [], ⟨some (some "tok")⟩⟩
      "2024-05-15" rfl (by decide)
      (fun h => absurd ((data_lt_iff _ _).mpr h) (by decide)) rfl

/-- C10: when `check_available_time` returns the empty string (a falsy
value, e.g. because the first `available_times` entry is `""`), the loop
treats it like absence: the baseline is still updated to the candidate
date, but `book_appointment` is not invoked. -/
theorem c10_empty_string_time_no_booking :
    ∀ (s : LoopState) (inp : IterInput) (d : String),
    check_available_date inp.days = Except.ok (JVal.str d) →
    d ≠ "" →
    ¬ s.current_booked_date < d →
    check_available_time inp.times = Except.ok (JVal.str "") →
    ( outcomeBaseline (runIteration s inp).2 = d
    ∧ Request.getAppointment ∉ (runIteration s inp).1
    ∧ ∀ tok d' t', Request.postAppointment tok d' t' ∉ (runIteration s inp).1 ) := by
  intro s inp d hcd hne hlt hct
  have hlt' : ¬ s.current_booked_date.data < d.data :=
    fun hh => hlt ((data_lt_iff _ _).mp hh)
  simp [runIteration, hcd, hct, JVal.truthy, isEmpty_false_of_ne hne, hlt',
    timeSleep, outcomeBaseline, show ("" : String).isEmpty = true from rfl]

/-- C10, witness: `available_times` starts with `""`; the baseline is
updated and no booking request is sent. -/
theorem c10_empty_string_time_no_booking_witness :
    ( check_available_date (JVal.arr [JVal.obj [("date", JVal.str "2024-05-15")]])
        = Except.ok (JVal.str "2024-05-15")
    ∧ ("2024-05-15" : String) ≠ ""
    ∧ ¬ ("2024-06-01" : String) < "2024-05-15"
    ∧ check_available_time (JVal.obj [("available_times", JVal.arr [JVal.str ""])])
        = Except.ok (JVal.str "") )
    ∧ ( outcomeBaseline (runIteration ⟨"2024-06-01", none⟩
          ⟨JVal.arr [JVal.obj [("date", JVal.str "2024-05-15")]],
           JVal.obj [("available_times", JVal.arr [JVal.str ""])],
           ⟨some (some "tok")⟩⟩).2 = "2024-05-15"
      ∧ Request.getAppointment ∉ (runIteration ⟨"2024-06-01", none⟩
          ⟨JVal.arr [JVal.obj [("date", JVal.str "2024-05-15")]],
           JVal.obj [("available_times", JVal.arr [JVal.str ""])],
           ⟨some (some "tok")⟩⟩).1
      ∧ ∀ tok d' t', Request.postAppointment tok d' t'
          ∉ (runIteration ⟨"2024-06-01", none⟩
            ⟨JVal.arr [JVal.obj [("date", JVal.str "2024-05-15")]],
             JVal.obj [("available_times", JVal.arr [JVal.str ""])],
             ⟨some (some "tok")⟩⟩).1 ) := by
  refine ⟨⟨rfl, by decide, ?_, rfl⟩, ?_⟩
  · intro h
    exact absurd ((data_lt_iff _ _).mpr h) (by decide)
  · exact c10_empty_string_time_no_booking ⟨"2024-06-01", none⟩
      ⟨JVal.arr [JVal.obj [("date", JVal.str "2024-05-15")]],
       JVal.obj [("available_times", JVal.arr [JVal.str ""])], ⟨some (some "tok")⟩⟩
      "2024-05-15" rfl (by decide)
      (fun h => absurd ((data_lt_iff _ _).mpr h) (by decide)) rfl

/-- C3: with a (truthy) candidate date from `check_available_date`: if it
is strictly later than the baseline, the iteration issues only the days
GET (so neither `check_available_time` nor `book_appointment` runs) and
the baseline is unchanged; if it is earlier than or equal to the baseline
— equality included — the baseline becomes the candidate and the times
GET for the candidate is issued. -/
theorem c3_date_comparison :
    ∀ (s : LoopState) (inp : IterInput) (d : String),
    check_available_date inp.days = Except.ok (JVal.str d) →
    d ≠ "" →
    ( ( s.current_booked_date < d →
        (runIteration s inp).1 = [Request.getDays]
        ∧ outcomeBaseline (runIteration s inp).2 = s.current_booked_date )
    ∧ ( ¬ s.current_booked_date < d →
        Request.getTimes d ∈ (runIteration s inp).1
        ∧ outcomeBaseline (runIteration s inp).2 = d ) ) := by
  intro s inp d hcd hne
  obtain ⟨cur, tv⟩ := s
  constructor
  · intro h
    have h' : cur.data < d.data := (data_lt_iff _ _).mpr h
    cases tv <;>
      simp [runIteration, hcd, JVal.truthy, isEmpty_false_of_ne hne, h',
        timeSleep, outcomeBaseline]
  · intro h
    have h' : ¬ cur.data < d.data := fun hh => h ((data_lt_iff _ _).mp hh)
    rcases hct : check_available_time inp.times with e | t
    · simp [runIteration, hcd, str_truthy hne, h', hct,
        outcomeBaseline]
    · cases htr : t.truthy
      · simp [runIteration, hcd, str_truthy hne, h', hct,
          htr, timeSleep, outcomeBaseline]
      · rcases hfc : find_csrf inp.appointmentPage with e | tok <;>
          simp [runIteration, book_appointment, hcd, str_truthy hne,
            h', hct, htr, hfc, timeSleep, outcomeBaseline]

/-- C3, witness: the three scripted scenarios share the shape proved above;
here the candidate 2024-05-15 against baseline 2024-06-01. -/
theorem c3_date_comparison_witness :
    ( check_available_date (JVal.arr [JVal.obj [("date", JVal.str "2024-05-15")]])
        = Except.ok (JVal.str "2024-05-15")
    ∧ ("2024-05-15" : String) ≠ "" )
    ∧ ( ( ("2024-06-01" : String) < "2024-05-15" →
          (runIteration ⟨"2024-06-01", none⟩
            ⟨JVal.arr [JVal.obj [("date", JVal.str "2024-05-15")]],
             JVal.obj [], ⟨some (some "tok")⟩⟩).1 = [Request.getDays]
          ∧ outcomeBaseline (runIteration ⟨"2024-06-01", none⟩
              ⟨JVal.arr [JVal.obj [("date", JVal.str "2024-05-15")]],
               JVal.obj [], ⟨some (some "tok")⟩⟩).2 = "2024-06-01" )
      ∧ ( ¬ ("2024-06-01" : String) < "2024-05-15" →
          Request.getTimes "2024-05-15" ∈ (runIteration ⟨"2024-06-01", none⟩
            ⟨JVal.arr [JVal.obj [("date", JVal.str "2024-05-15")]],
             JVal.obj [], ⟨some (some "tok")⟩⟩).1
          ∧ outcomeBaseline (runIteration ⟨"2024-06-01", none⟩
              ⟨JVal.arr [JVal.obj [("date", JVal.str "2024-05-15")]],
               JVal.obj [], ⟨some (some "tok")⟩⟩).2 = "2024-05-15" ) ) :=
  ⟨⟨rfl, by decide⟩,
   c3_date_comparison ⟨"2024-06-01", none⟩
     ⟨JVal.arr [JVal.obj [("date", JVal.str "2024-05-15")]],
      JVal.obj [], ⟨some (some "tok")⟩⟩ "2024-05-15" rfl (by decide)⟩

/-- C4: an exception anywhere in login or a poll iteration reaches the
`except` at the bottom of `run`, and the loop restarts — via
`self.run(current_booked_date)`, whose first act is `self.login()` — with
exactly the `current_booked_date` value held when the exception was
raised; moreover that value is either the baseline the iteration started
with or the candidate date assigned just before the raise, never anything
else. -/
theorem c4_restart_preserves_baseline :
    ( ∀ (current : String) (a : AttemptInput) (rest : List AttemptInput)
        (e : PyErr) (d : String) (reqs : List Request),
      current ≠ "" →
      runAttempt current a = (reqs, .raised e d) →
      run current (a :: rest) = (reqs ++ (run d rest).1, (run d rest).2) )
    ∧ ( ∀ (s : LoopState) (inp : IterInput) (e : PyErr) (d : String),
      (runIteration s inp).2 = .raised e d →
      d = s.current_booked_date
      ∨ check_available_date inp.days = Except.ok (JVal.str d) ) := by
  constructor
  · intro current a rest e d reqs hcur h
    simp [run, isEmpty_false_of_ne hcur, h]
  · intro s inp e d h
    obtain ⟨cur, tv⟩ := s
    rcases hcd : check_available_date inp.days with e' | date
    · simp [runIteration, hcd] at h
      exact Or.inl h.2.symm
    · by_cases hdt : date.truthy = true
      · match date with
        | .null => simp [JVal.truthy] at hdt
        | .arr xs =>
            cases tv <;> simp [runIteration, hcd, hdt] at h <;>
              exact Or.inl h.2.symm
        | .obj fs =>
            cases tv <;> simp [runIteration, hcd, hdt] at h <;>
              exact Or.inl h.2.symm
        | .str dd =>
            by_cases hc : cur.data < dd.data
            · cases tv <;>
                simp [runIteration, hcd, hdt, hc, timeSleep, outcomeBaseline] at h <;>
                exact Or.inl h.2.symm
            · rcases hct : check_available_time inp.times with e2 | t
              · simp [runIteration, hcd, hdt, hc, hct] at h
                obtain ⟨-, rfl⟩ := h
                exact Or.inr rfl
              · cases htr : t.truthy
                · simp [runIteration, hcd, hdt, hc, hct, htr, timeSleep] at h
                  obtain ⟨-, rfl⟩ := h
                  exact Or.inr rfl
                · rcases hfc : find_csrf inp.appointmentPage with e3 | tok <;>
                    simp [runIteration, book_appointment, hcd, hdt, hc, hct,
                      htr, hfc, timeSleep] at h <;>
                    (obtain ⟨-, rfl⟩ := h; exact Or.inr rfl)
      · cases tv <;>
          simp [runIteration, hcd, hdt, timeSleep] at h <;>
          exact Or.inl h.2.symm

/-- C4, witness: a sign-in page with no csrf meta tag makes `login` raise;
the restart re-runs with the same baseline. -/
theorem c4_restart_preserves_baseline_witness :
    ( ("2024-06-01" : String) ≠ ""
    ∧ runAttempt "2024-06-01" ⟨⟨none⟩, []⟩
        = ([Request.getSignIn], .raised PyErr.typeError "2024-06-01") )
    ∧ run "2024-06-01" [⟨⟨none⟩, []⟩]
        = ([Request.getSignIn] ++ (run "2024-06-01" []).1, (run "2024-06-01" []).2) :=
  ⟨⟨by decide, rfl⟩,
   c4_restart_preserves_baseline.1 "2024-06-01" ⟨⟨none⟩, []⟩ [] PyErr.typeError
     "2024-06-01" [Request.getSignIn] (by decide) rfl⟩

/-- The `current_booked_date` an attempt outcome carries. -/
def attemptOutcomeBaseline : AttemptOutcome → String
  | .raised _ d => d
  | .outOfScript s => s.current_booked_date

/-- One iteration never increases `current_booked_date`: the only
assignment happens under `not (date > current_booked_date)`. -/
theorem iter_baseline_le (s : LoopState) (inp : IterInput) :
    outcomeBaseline (runIteration s inp).2 ≤ s.current_booked_date := by
  obtain ⟨cur, tv⟩ := s
  rcases hcd : check_available_date inp.days with e' | date
  · simp [runIteration, hcd, outcomeBaseline]
  · by_cases hdt : date.truthy = true
    · match date with
      | .null => simp [JVal.truthy] at hdt
      | .arr xs =>
          cases tv <;> simp [runIteration, hcd, hdt, outcomeBaseline]
      | .obj fs =>
          cases tv <;> simp [runIteration, hcd, hdt, outcomeBaseline]
      | .str dd =>
          by_cases hc : cur.data < dd.data
          · cases tv <;>
              simp [runIteration, hcd, hdt, hc, timeSleep, outcomeBaseline]
          · have hle : dd ≤ cur :=
              le_of_not_lt (fun hh => hc ((data_lt_iff _ _).mpr hh))
            rcases hct : check_available_time inp.times with e2 | t
            · simp [runIteration, hcd, hdt, hc, hct, outcomeBaseline, hle]
            · cases htr : t.truthy
              · simp [runIteration, hcd, hdt, hc, hct, htr, timeSleep,
                  outcomeBaseline, hle]
              · rcases hfc : find_csrf inp.appointmentPage with e3 | tok <;>
                  simp [runIteration, book_appointment, hcd, hdt, hc, hct,
                    htr, hfc, timeSleep, outcomeBaseline, hle]
    · cases tv <;> simp [runIteration, hcd, hdt, timeSleep, outcomeBaseline]

/-- The `while True` loop never increases `current_booked_date`. -/
theorem loop_baseline_le :
    ∀ (iters : List IterInput) (s : LoopState),
    attemptOutcomeBaseline (runLoop s iters).2 ≤ s.current_booked_date := by
  intro iters
  induction iters with
  | nil => intro s; simp [runLoop, attemptOutcomeBaseline]
  | cons inp rest ih =>
    intro s
    have hiter := iter_baseline_le s inp
    rcases hit : runIteration s inp with ⟨reqs, out⟩
    rw [hit] at hiter
    cases out with
    | raised e d =>
        simpa [runLoop, hit, attemptOutcomeBaseline, outcomeBaseline] using hiter
    | next s' =>
        have := ih s'
        calc attemptOutcomeBaseline (runLoop s (inp :: rest)).2
            = attemptOutcomeBaseline (runLoop s' rest).2 := by
              simp [runLoop, hit]
          _ ≤ s'.current_booked_date := this
          _ ≤ s.current_booked_date := by
              simpa [outcomeBaseline] using hiter

/-- A whole login-plus-loop attempt never increases `current_booked_date`. -/
theorem attempt_baseline_le (current : String) (a : AttemptInput) :
    attemptOutcomeBaseline (runAttempt current a).2 ≤ current := by
  rcases hl : login a.signInPage with ⟨lreqs, lres⟩
  cases lres with
  | error e => simp [runAttempt, hl, attemptOutcomeBaseline]
  | ok _ =>
      have := loop_baseline_le a.iters ⟨current, none⟩
      simpa [runAttempt, hl] using this

/-- C5: `current_booked_date` is monotonically non-increasing in the
lexicographic `String` order, both across a single iteration and across
the whole restart-on-exception process: it never regresses to a later
date once advanced. -/
theorem c5_baseline_monotone :
    ( ∀ (s : LoopState) (inp : IterInput),
        outcomeBaseline (runIteration s inp).2 ≤ s.current_booked_date )
    ∧ ( ∀ (attempts : List AttemptInput) (current : String),
        (run current attempts).2 ≤ current ) := by
  refine ⟨iter_baseline_le, ?_⟩
  intro attempts
  induction attempts with
  | nil => intro current; simp [run]
  | cons a rest ih =>
    intro current
    by_cases hcur : current.isEmpty = true
    · simp [run, hcur]
    · have hatt := attempt_baseline_le current a
      rcases hra : runAttempt current a with ⟨reqs, out⟩
      rw [hra] at hatt
      cases out with
      | raised e d =>
          have h1 : (run current (a :: rest)).2 = (run d rest).2 := by
            simp [run, hcur, hra]
          rw [h1]
          exact le_trans (ih d)
            (by simpa [attemptOutcomeBaseline] using hatt)
      | outOfScript s =>
          have h1 : (run current (a :: rest)).2 = s.current_booked_date := by
            simp [run, hcur, hra]
          rw [h1]
          simpa [attemptOutcomeBaseline] using hatt

/-- C9: invoking `main` with an argv of the wrong arity (anything but
program name plus exactly one date) prints the usage message and exits
with code 1, issuing zero HTTP requests; invoking it with an empty date
string makes `run` log and return before the loop, again with zero HTTP
requests. -/
theorem c9_cli_guard :
    ( ∀ (argv : List String) (attempts : List AttemptInput),
        argv.length ≠ 2 →
        main argv attempts = (MainOutcome.usageExit 1, []) )
    ∧ ( ∀ (prog : String) (attempts : List AttemptInput),
        main [prog, ""] attempts = (MainOutcome.finished "", []) ) := by
  constructor
  · intro argv attempts h
    match argv with
    | [] => rfl
    | [_] => rfl
    | [_, _] => exact absurd rfl h
    | _ :: _ :: _ :: _ => rfl
  · intro prog attempts
    cases attempts <;> rfl

/-- C9, witness: the empty argv exits with usage. -/
theorem c9_cli_guard_witness :
    ([] : List String).length ≠ 2
    ∧ main [] [] = (MainOutcome.usageExit 1, []) :=
  ⟨by decide, c9_cli_guard.1 [] [] (by decide)⟩

end VisaBot
